import Mathlib

/-!
Verification of the auto-scroll controller (`useAutoScroll.ts`): the
scroll-target resolver `findScrollableAncestor`, the pointer-to-speed
conversion `updatePointerY`, the per-frame step `tick`, and the drag
start/stop lifecycle, shallowly embedded over rational coordinates.
-/

namespace AutoScroll

/-- Fixed edge-activation zone width in pixels (`threshold = 100` in the source). -/
def threshold : ℚ := 100

/-- Fixed peak velocity in pixels per frame (`maxSpeed = 15` in the source). -/
def maxSpeed : ℚ := 15

/-- A resolved scroll target: its current vertical scroll offset, whether it is
the document-level scroller (`body`/`documentElement`), and its on-screen
bounding-rectangle top and bottom. -/
structure ScrollTarget where
  scrollTop : ℚ
  isDocScroller : Bool
  rectTop : ℚ
  rectBottom : ℚ
  deriving DecidableEq, Repr

/-- Controller state: the `speedRef`, `rafRef` and `containerRef` refs of the
hook, plus whether the wheel-blocking listener is currently installed. -/
structure State where
  speed : ℚ
  raf : Option Nat
  container : Option ScrollTarget
  wheelBlocked : Bool
  deriving DecidableEq, Repr

/-- Initial state of the hook: all refs start empty, speed 0. -/
def initState : State :=
  { speed := 0, raf := none, container := none, wheelBlocked := false }

/-- Visible top/bottom bounds of the target, as computed in `updatePointerY`:
`[0, window.innerHeight]` for the document scroller, otherwise the target's
bounding-rectangle top/bottom. -/
def visibleBounds (innerHeight : ℚ) (el : ScrollTarget) : ℚ × ℚ :=
  if el.isDocScroller then (0, innerHeight) else (el.rectTop, el.rectBottom)

/-- `updatePointerY(clientY)`: recompute the speed from the pointer's vertical
coordinate. No-op when no container is set. Quadratic easing at either edge,
top edge checked first, dead zone sets speed to 0. -/
def updatePointerY (innerHeight clientY : ℚ) (s : State) : State :=
  match s.container with
  | none => s
  | some el =>
      let b := visibleBounds innerHeight el
      let distFromTop := clientY - b.1
      let distFromBottom := b.2 - clientY
      if distFromTop < threshold then
        { s with speed :=
            -maxSpeed * (1 - distFromTop / threshold) * (1 - distFromTop / threshold) }
      else if distFromBottom < threshold then
        { s with speed :=
            maxSpeed * (1 - distFromBottom / threshold) * (1 - distFromBottom / threshold) }
      else
        { s with speed := 0 }

/-- One frame step (`tick`): when the speed is non-zero and a container is set,
add the speed to the container's scroll offset and report the new offset to the
observer (when one is registered); in every case reschedule with the fresh
frame handle `h`. Returns the new state together with the argument of the
observer call, if any. -/
def tick (hasObserver : Bool) (h : Nat) (s : State) : State × Option ℚ :=
  match s.container with
  | some el =>
      if s.speed ≠ 0 then
        let el2 : ScrollTarget := { el with scrollTop := el.scrollTop + s.speed }
        ({ s with container := some el2, raf := some h },
          if hasObserver then some el2.scrollTop else none)
      else
        ({ s with raf := some h }, none)
  | none => ({ s with raf := some h }, none)

/-- Drag start (effect body on `isDragging = true`): if resolution returned
null, return immediately; otherwise store the target, schedule the first frame
(handle `h`) and install the wheel blocker. -/
def startDrag (resolved : Option ScrollTarget) (h : Nat) (s : State) : State :=
  match resolved with
  | none => s
  | some el => { s with container := some el, raf := some h, wheelBlocked := true }

/-- Cancel a scheduled frame if any (`cancelAnimationFrame` + `rafRef = null`). -/
def cancelFrame (s : State) : State := { s with raf := none }

/-- The effect cleanup: cancel the scheduled frame and remove the wheel
listener. -/
def effectCleanup (s : State) : State := { cancelFrame s with wheelBlocked := false }

/-- Drag stop: the cleanup of the previous effect run followed by the
`!isDragging` branch of the effect body (cancel frame, zero speed, clear the
container). When no cleanup was registered the cleanup part is a no-op on an
already released state, so composing it is faithful in either case. -/
def stopDrag (s : State) : State :=
  { cancelFrame (effectCleanup s) with speed := 0, container := none }

/-- A DOM element as seen by the resolver: computed vertical overflow style,
scroll/client heights, whether it is `document.body` or
`document.documentElement`, and a tag to tell concrete elements apart. -/
structure Elem where
  overflowY : String
  scrollHeight : ℤ
  clientHeight : ℤ
  isBody : Bool
  isDocElement : Bool
  tag : String
  deriving DecidableEq, Repr

/-- The document, reduced to what the resolver reads: its designated scrolling
element, possibly absent. -/
structure Document where
  scrollingElement : Option Elem
  deriving DecidableEq, Repr

/-- `current === document.body || current === document.documentElement`. -/
def isBodyOrRoot (e : Elem) : Bool := e.isBody || e.isDocElement

/-- `(overflowY === 'auto' || overflowY === 'scroll') && scrollHeight > clientHeight`. -/
def hasScrollableOverflow (e : Elem) : Bool :=
  (e.overflowY == "auto" || e.overflowY == "scroll")
    && decide (e.scrollHeight > e.clientHeight)

/-- `findScrollableAncestor`: walk the ancestor chain (element itself first).
Body/root short-circuits to `document.scrollingElement ?? current`; a candidate
with scrollable overflow is returned; exhausting the chain falls back to
`document.scrollingElement ?? null`. A null starting element is the empty
chain. -/
def findScrollableAncestor (doc : Document) : List Elem → Option Elem
  | [] => doc.scrollingElement
  | current :: ancestors =>
      if isBodyOrRoot current then
        some (doc.scrollingElement.getD current)
      else if hasScrollableOverflow current then
        some current
      else
        findScrollableAncestor doc ancestors

/-- A concrete non-document scroll target with visible bounds `[0, 300]`. -/
def demoTarget : ScrollTarget :=
  { scrollTop := 0, isDocScroller := false, rectTop := 0, rectBottom := 300 }

/-- The state of a freshly started session on `demoTarget`. -/
def demoState : State := startDrag (some demoTarget) 1 initState

/-- A mid-drag state scrolling upward at peak speed on `demoTarget`. -/
def runDemoState : State :=
  { speed := -15, raf := some 3, container := some demoTarget, wheelBlocked := true }

/-- A leaf element with no scrollable overflow. -/
def plainLeaf : Elem :=
  { overflowY := "visible", scrollHeight := 100, clientHeight := 100,
    isBody := false, isDocElement := false, tag := "leaf" }

/-- A `document.body` with no scrollable overflow. -/
def plainBody : Elem :=
  { overflowY := "visible", scrollHeight := 100, clientHeight := 100,
    isBody := true, isDocElement := false, tag := "body" }

/-- An element with `overflow-y: visible` (the `A` of the resolver scenario). -/
def elemA : Elem :=
  { overflowY := "visible", scrollHeight := 50, clientHeight := 50,
    isBody := false, isDocElement := false, tag := "A" }

/-- An element with `overflow-y: auto` and overflowing content (the `B` of the
resolver scenario). -/
def elemB : Elem :=
  { overflowY := "auto", scrollHeight := 400, clientHeight := 200,
    isBody := false, isDocElement := false, tag := "B" }

/-- The root element serving as `document.scrollingElement`. -/
def docScroller : Elem :=
  { overflowY := "visible", scrollHeight := 900, clientHeight := 600,
    isBody := false, isDocElement := true, tag := "html" }

/-- A document with a designated scrolling element. -/
def stdDoc : Document := { scrollingElement := some docScroller }

/-- A document with no designated scrolling element. -/
def bareDoc : Document := { scrollingElement := none }

example : demoState.container = some demoTarget := rfl
example : findScrollableAncestor stdDoc [elemA, elemB, plainBody] = some elemB := by decide
example : findScrollableAncestor stdDoc [plainLeaf, plainBody] = some docScroller := by decide
example : findScrollableAncestor bareDoc [plainLeaf, plainBody] = some plainBody := by decide
example : findScrollableAncestor bareDoc [plainLeaf] = none := by decide
example : (updatePointerY 800 50 demoState).speed = -15 * (1/2) * (1/2) := by
  norm_num [updatePointerY, demoState, startDrag, initState, demoTarget,
    visibleBounds, threshold, maxSpeed]
example : (updatePointerY 800 (-100) demoState).speed = -60 := by
  norm_num [updatePointerY, demoState, startDrag, initState, demoTarget,
    visibleBounds, threshold, maxSpeed]
example : (updatePointerY 800 150 demoState).speed = 0 := by
  norm_num [updatePointerY, demoState, startDrag, initState, demoTarget,
    visibleBounds, threshold, maxSpeed]

/-- Unfolding lemma for `updatePointerY` on a state with an active container. -/
theorem updatePointerY_eq (ih y : ℚ) (s : State) (el : ScrollTarget)
    (hc : s.container = some el) :
    updatePointerY ih y s =
      (if y - (visibleBounds ih el).1 < threshold then
        { s with speed :=
            -maxSpeed * (1 - (y - (visibleBounds ih el).1) / threshold)
              * (1 - (y - (visibleBounds ih el).1) / threshold) }
      else if (visibleBounds ih el).2 - y < threshold then
        { s with speed :=
            maxSpeed * (1 - ((visibleBounds ih el).2 - y) / threshold)
              * (1 - ((visibleBounds ih el).2 - y) / threshold) }
      else
        { s with speed := 0 }) := by
  unfold updatePointerY
  rw [hc]

/-- C1: with an active target of visible bounds `[top, bottom]`: when
`distFromTop < threshold` the speed becomes `-maxSpeed * (1 - distFromTop/threshold)^2`
(the top branch wins regardless of the bottom distance); otherwise when
`distFromBottom < threshold` it becomes `maxSpeed * (1 - distFromBottom/threshold)^2`;
otherwise it becomes `0`. -/
theorem updatePointerY_speed_formula (ih y : ℚ) (s : State) (el : ScrollTarget)
    (hc : s.container = some el) :
    (y - (visibleBounds ih el).1 < threshold →
      (updatePointerY ih y s).speed
        = -maxSpeed * (1 - (y - (visibleBounds ih el).1) / threshold) ^ 2) ∧
    (threshold ≤ y - (visibleBounds ih el).1 →
      (visibleBounds ih el).2 - y < threshold →
      (updatePointerY ih y s).speed
        = maxSpeed * (1 - ((visibleBounds ih el).2 - y) / threshold) ^ 2) ∧
    (threshold ≤ y - (visibleBounds ih el).1 →
      threshold ≤ (visibleBounds ih el).2 - y →
      (updatePointerY ih y s).speed = 0) := by
  rw [updatePointerY_eq ih y s el hc]
  refine ⟨fun h1 => ?_, fun h1 h2 => ?_, fun h1 h2 => ?_⟩
  · rw [if_pos h1]; ring
  · rw [if_neg (not_lt.mpr h1), if_pos h2]; ring
  · rw [if_neg (not_lt.mpr h1), if_neg (not_lt.mpr h2)]

/-- C1 witness: at visible bounds `[0, 300]` and `clientY = 50`, the top branch
applies and the speed is `-15 * (1 - 50/100)^2`. -/
theorem updatePointerY_speed_formula_witness :
    (updatePointerY 800 50 demoState).speed
      = -maxSpeed * (1 - (50 - (visibleBounds 800 demoTarget).1) / threshold) ^ 2 :=
  (updatePointerY_speed_formula 800 50 demoState demoTarget rfl).1
    (by norm_num [visibleBounds, demoTarget, threshold])

/-- C5: for `clientY` strictly between `top + threshold` and
`bottom - threshold` of an active target, the speed becomes exactly `0`. -/
theorem deadZone_speed_zero (ih y : ℚ) (s : State) (el : ScrollTarget)
    (hc : s.container = some el)
    (h1 : (visibleBounds ih el).1 + threshold < y)
    (h2 : y < (visibleBounds ih el).2 - threshold) :
    (updatePointerY ih y s).speed = 0 := by
  rw [updatePointerY_eq ih y s el hc]
  rw [if_neg (by linarith), if_neg (by linarith)]

/-- C5 witness: with bounds `[0, 300]` and `clientY = 150` (inside the dead
zone `(100, 200)`), the resulting speed is `0`. -/
theorem deadZone_speed_zero_witness :
    (updatePointerY 800 150 demoState).speed = 0 :=
  deadZone_speed_zero 800 150 demoState demoTarget rfl
    (by norm_num [visibleBounds, demoTarget, threshold])
    (by norm_num [visibleBounds, demoTarget, threshold])

/-- An operation of the controller: a drag-start transition (with the outcome
of target resolution and the fresh frame handle), a drag-stop transition, or a
pointer report. -/
inductive Op where
  | start (resolved : Option ScrollTarget) (h : Nat)
  | stop
  | pointer (clientY : ℚ)
  deriving DecidableEq

/-- Apply one operation to the controller state. -/
def applyOp (ih : ℚ) (s : State) : Op → State
  | .start r h => startDrag r h s
  | .stop => stopDrag s
  | .pointer y => updatePointerY ih y s

/-- C2 counterexample: starting a session on a target with visible bounds
`[0, 300]` and then reporting `clientY = -100` (pointer 100px above the top
bound) drives the speed to `-60`, outside `[-maxSpeed, maxSpeed] = [-15, 15]`. -/
theorem speed_invariant_counterexample :
    (applyOp 800 (applyOp 800 initState (Op.start (some demoTarget) 1))
        (Op.pointer (-100))).speed = -60 ∧
    ¬ (-maxSpeed ≤ (-60 : ℚ)) := by
  constructor
  · norm_num [applyOp, updatePointerY, demoState, startDrag, initState, demoTarget,
      visibleBounds, threshold, maxSpeed]
  · norm_num [maxSpeed]

/-- C2 (amended): each operation preserves `|speed| ≤ maxSpeed`, provided any
pointer report's `clientY` lies within the active target's visible bounds; a
pointer beyond those bounds can exceed `maxSpeed` in magnitude. -/
theorem speed_invariant_preserved (ih : ℚ) (s : State) (op : Op)
    (hs : |s.speed| ≤ maxSpeed)
    (hb : ∀ y el, op = Op.pointer y → s.container = some el →
      (visibleBounds ih el).1 ≤ y ∧ y ≤ (visibleBounds ih el).2) :
    |(applyOp ih s op).speed| ≤ maxSpeed := by
  cases op with
  | start r h =>
      cases r with
      | none => exact hs
      | some el => exact hs
  | stop =>
      simp [applyOp, stopDrag, effectCleanup, cancelFrame, maxSpeed]
  | pointer y =>
      rcases hcont : s.container with _ | el
      · simpa [applyOp, updatePointerY, hcont] using hs
      · obtain ⟨hy1, hy2⟩ := hb y el rfl hcont
        rw [applyOp, updatePointerY_eq ih y s el hcont]
        have h100 : (0 : ℚ) < threshold := by norm_num [threshold]
        split_ifs with htop hbot
        · have hd0 : 0 ≤ y - (visibleBounds ih el).1 := by linarith
          have hr1 : 0 < 1 - (y - (visibleBounds ih el).1) / threshold := by
            have : (y - (visibleBounds ih el).1) / threshold < 1 :=
              (div_lt_one h100).2 htop
            linarith
          have hr2 : 1 - (y - (visibleBounds ih el).1) / threshold ≤ 1 := by
            have : 0 ≤ (y - (visibleBounds ih el).1) / threshold :=
              div_nonneg hd0 (le_of_lt h100)
            linarith
          rw [abs_le]
          constructor <;> · simp only [maxSpeed] at *; nlinarith
        · have hd0 : 0 ≤ (visibleBounds ih el).2 - y := by linarith
          have hr1 : 0 < 1 - ((visibleBounds ih el).2 - y) / threshold := by
            have : ((visibleBounds ih el).2 - y) / threshold < 1 :=
              (div_lt_one h100).2 hbot
            linarith
          have hr2 : 1 - ((visibleBounds ih el).2 - y) / threshold ≤ 1 := by
            have : 0 ≤ ((visibleBounds ih el).2 - y) / threshold :=
              div_nonneg hd0 (le_of_lt h100)
            linarith
          rw [abs_le]
          constructor <;> · simp only [maxSpeed] at *; nlinarith
        · simp [maxSpeed]

/-- C2 witness: from the fresh session on bounds `[0, 300]` (speed `0`), an
in-bounds pointer report at `clientY = 50` keeps `|speed| ≤ maxSpeed`. -/
theorem speed_invariant_preserved_witness :
    |(applyOp 800 demoState (Op.pointer 50)).speed| ≤ maxSpeed :=
  speed_invariant_preserved 800 demoState (Op.pointer 50)
    (by norm_num [demoState, startDrag, initState, maxSpeed])
    (by
      intro y el hy hel
      cases hy
      cases hel
      norm_num [visibleBounds, demoTarget])

/-- C6 counterexample: on bounds `[0, 300]`, the position `clientY = 150` is
strictly closer to the bottom edge than `clientY = 0` (`distFromBottom` 150
vs 300), yet its speed magnitude is strictly smaller (`0` vs `15`): "strictly
closer to an edge" in the sense of a smaller `distFromBottom` does not make
`|speed|` non-decreasing. -/
theorem easing_monotone_counterexample :
    ((visibleBounds 800 demoTarget).2 - 150 < (visibleBounds 800 demoTarget).2 - 0) ∧
    |(updatePointerY 800 150 demoState).speed| < |(updatePointerY 800 0 demoState).speed| := by
  constructor
  · norm_num [visibleBounds, demoTarget]
  · norm_num [updatePointerY, demoState, startDrag, initState, demoTarget,
      visibleBounds, threshold, maxSpeed]

/-- C6 (amended): monotonicity holds within a single edge branch. If both
positions fall in the top-edge branch (`distFromTop < threshold`) and the
second has the smaller `distFromTop`, then `|speed|` is non-decreasing; and
symmetrically, if both positions fall in the bottom-edge branch
(`threshold ≤ distFromTop` and `distFromBottom < threshold`) and the second has
the smaller `distFromBottom`, then `|speed|` is non-decreasing. Across the two
branches or into the dead zone the claim fails. -/
theorem easing_monotone_sameEdge (ih y1 y2 : ℚ) (s : State) (el : ScrollTarget)
    (hc : s.container = some el) :
    ((y2 - (visibleBounds ih el).1 ≤ y1 - (visibleBounds ih el).1 →
      y1 - (visibleBounds ih el).1 < threshold →
      |(updatePointerY ih y1 s).speed| ≤ |(updatePointerY ih y2 s).speed|)) ∧
    ((threshold ≤ y1 - (visibleBounds ih el).1 →
      threshold ≤ y2 - (visibleBounds ih el).1 →
      (visibleBounds ih el).2 - y2 ≤ (visibleBounds ih el).2 - y1 →
      (visibleBounds ih el).2 - y1 < threshold →
      |(updatePointerY ih y1 s).speed| ≤ |(updatePointerY ih y2 s).speed|)) := by
  have h100 : (0 : ℚ) < threshold := by norm_num [threshold]
  constructor
  · intro hle h1
    have h2 : y2 - (visibleBounds ih el).1 < threshold := lt_of_le_of_lt hle h1
    rw [updatePointerY_eq ih y1 s el hc, updatePointerY_eq ih y2 s el hc,
      if_pos h1, if_pos h2]
    have hr1 : 0 < 1 - (y1 - (visibleBounds ih el).1) / threshold := by
      have : (y1 - (visibleBounds ih el).1) / threshold < 1 := (div_lt_one h100).2 h1
      linarith
    have hr2 : 0 < 1 - (y2 - (visibleBounds ih el).1) / threshold := by
      have : (y2 - (visibleBounds ih el).1) / threshold < 1 := (div_lt_one h100).2 h2
      linarith
    have hrle : 1 - (y1 - (visibleBounds ih el).1) / threshold
        ≤ 1 - (y2 - (visibleBounds ih el).1) / threshold := by
      have : (y2 - (visibleBounds ih el).1) / threshold
          ≤ (y1 - (visibleBounds ih el).1) / threshold :=
        (div_le_div_iff_of_pos_right h100).2 hle
      linarith
    rw [abs_of_nonpos (by simp only [maxSpeed]; nlinarith),
      abs_of_nonpos (by simp only [maxSpeed]; nlinarith)]
    simp only [maxSpeed]
    nlinarith
  · intro ht1 ht2 hle h1
    have h2 : (visibleBounds ih el).2 - y2 < threshold := lt_of_le_of_lt hle h1
    rw [updatePointerY_eq ih y1 s el hc, updatePointerY_eq ih y2 s el hc,
      if_neg (not_lt.mpr ht1), if_neg (not_lt.mpr ht2), if_pos h1, if_pos h2]
    have hr1 : 0 < 1 - ((visibleBounds ih el).2 - y1) / threshold := by
      have : ((visibleBounds ih el).2 - y1) / threshold < 1 := (div_lt_one h100).2 h1
      linarith
    have hr2 : 0 < 1 - ((visibleBounds ih el).2 - y2) / threshold := by
      have : ((visibleBounds ih el).2 - y2) / threshold < 1 := (div_lt_one h100).2 h2
      linarith
    have hrle : 1 - ((visibleBounds ih el).2 - y1) / threshold
        ≤ 1 - ((visibleBounds ih el).2 - y2) / threshold := by
      have : ((visibleBounds ih el).2 - y2) / threshold
          ≤ ((visibleBounds ih el).2 - y1) / threshold :=
        (div_le_div_iff_of_pos_right h100).2 hle
      linarith
    rw [abs_of_nonneg (by simp only [maxSpeed]; nlinarith),
      abs_of_nonneg (by simp only [maxSpeed]; nlinarith)]
    simp only [maxSpeed]
    nlinarith

/-- C6 witness: on bounds `[0, 300]`, `clientY = 25` is closer to the top edge
than `clientY = 50` and both are in the top branch, so the speed magnitude does
not decrease. -/
theorem easing_monotone_sameEdge_witness :
    |(updatePointerY 800 50 demoState).speed| ≤ |(updatePointerY 800 25 demoState).speed| :=
  (easing_monotone_sameEdge 800 50 25 demoState demoTarget rfl).1
    (by norm_num [visibleBounds, demoTarget])
    (by norm_num [visibleBounds, demoTarget, threshold])

/-- C7: drag-stop is idempotent, and a stopped state has no scheduled frame,
speed `0`, no stored scroll target, and no wheel block installed. -/
theorem stopDrag_idempotent (s : State) :
    stopDrag (stopDrag s) = stopDrag s ∧
    (stopDrag s).raf = none ∧
    (stopDrag s).speed = 0 ∧
    (stopDrag s).container = none ∧
    (stopDrag s).wheelBlocked = false := by
  refine ⟨rfl, rfl, rfl, rfl, rfl⟩

/-- C8: the frame step applies a non-zero speed to the active target's scroll
offset, reports the new offset to the observer when one is registered, and
always reschedules itself with the fresh frame handle — also when the speed is
`0` or no target is set. -/
theorem tick_step (obs : Bool) (h : Nat) (s : State) :
    (∀ el, s.container = some el → s.speed ≠ 0 →
      (tick obs h s).1.container = some { el with scrollTop := el.scrollTop + s.speed } ∧
      (obs = true → (tick obs h s).2 = some (el.scrollTop + s.speed))) ∧
    (tick obs h s).1.raf = some h := by
  constructor
  · intro el hel hne
    rw [tick, hel]
    dsimp only
    rw [if_pos hne]
    refine ⟨rfl, fun hobs => ?_⟩
    rw [hobs]
    rfl
  · rcases hel : s.container with _ | el
    · rw [tick, hel]
    · rw [tick, hel]
      dsimp only
      by_cases hne : s.speed ≠ 0
      · rw [if_pos hne]
      · rw [if_neg hne]

/-- C8 witness: a session scrolling at speed `-15` on a target with offset `0`
moves the offset to `-15`, reports `-15` to the observer, and reschedules with
handle `7`. -/
theorem tick_step_witness :
    ((tick true 7 runDemoState).1.container
        = some { demoTarget with scrollTop := demoTarget.scrollTop + runDemoState.speed } ∧
      (true = true → (tick true 7 runDemoState).2
        = some (demoTarget.scrollTop + runDemoState.speed))) ∧
    (tick true 7 runDemoState).1.raf = some 7 :=
  ⟨(tick_step true 7 runDemoState).1 demoTarget rfl (by norm_num [runDemoState]),
    (tick_step true 7 runDemoState).2⟩

/-- C10: on a frame step with speed `0` or no target, the stored target (and
with it every scroll offset) is unchanged and the observer is not called; and
with an observer registered, the observer fires exactly when a non-zero speed
was applied to a present target. -/
theorem tick_idle_observer_iff (obs : Bool) (h : Nat) (s : State) :
    ((s.speed = 0 ∨ s.container = none) →
      (tick obs h s).1.container = s.container ∧ (tick obs h s).2 = none) ∧
    (obs = true → ((tick obs h s).2.isSome ↔ s.speed ≠ 0 ∧ s.container.isSome)) := by
  constructor
  · intro hidle
    rcases hel : s.container with _ | el
    · rw [tick, hel]
      exact ⟨rfl, rfl⟩
    · have hsp : s.speed = 0 := by
        rcases hidle with hsp | hnone
        · exact hsp
        · rw [hel] at hnone; cases hnone
      rw [tick, hel]
      dsimp only
      rw [if_neg (by simp [hsp])]
      exact ⟨rfl, rfl⟩
  · intro hobs
    rcases hel : s.container with _ | el
    · rw [tick, hel]
      simp
    · by_cases hne : s.speed ≠ 0
      · rw [tick, hel]
        dsimp only
        rw [if_pos hne, hobs]
        simp [hne]
      · rw [tick, hel]
        dsimp only
        rw [if_neg hne]
        simp at hne
        simp [hne]

/-- C10 witness: at speed `0` with a target still set and an observer
registered, the target is untouched, the observer is not called, and the
fired-iff-applied equivalence holds. -/
theorem tick_idle_observer_iff_witness :
    ((tick true 9 demoState).1.container = demoState.container ∧
      (tick true 9 demoState).2 = none) ∧
    ((tick true 9 demoState).2.isSome ↔ demoState.speed ≠ 0 ∧ demoState.container.isSome) :=
  ⟨(tick_idle_observer_iff true 9 demoState).1 (Or.inl rfl),
    (tick_idle_observer_iff true 9 demoState).2 rfl⟩

/-- C9: when target resolution returns null at drag start, the state is left
entirely unchanged (no frame scheduled, no wheel block installed), and while no
target is stored any subsequent pointer report is a no-op that leaves the speed
unchanged. -/
theorem startDrag_null_noop (h : Nat) (ih y : ℚ) (s : State)
    (hc : s.container = none) :
    startDrag none h s = s ∧
    updatePointerY ih y (startDrag none h s) = s := by
  refine ⟨rfl, ?_⟩
  show updatePointerY ih y s = s
  rw [updatePointerY, hc]

/-- C9 witness: from the initial state, a failed resolution followed by a
pointer report at `clientY = 42` changes nothing. -/
theorem startDrag_null_noop_witness :
    startDrag none 5 initState = initState ∧
    updatePointerY 800 42 (startDrag none 5 initState) = initState :=
  startDrag_null_noop 5 800 42 initState rfl

/-- C3 counterexample: with no scrollable target anywhere in the chain
(`leaf → body`, neither has scrollable overflow) and no designated scrolling
element, the resolver returns the body element — via the `?? current` fallback
of the body/root branch — rather than null. -/
theorem resolver_null_counterexample :
    bareDoc.scrollingElement = none ∧
    (∀ e ∈ [plainLeaf, plainBody], hasScrollableOverflow e = false) ∧
    findScrollableAncestor bareDoc [plainLeaf, plainBody] = some plainBody := by
  refine ⟨rfl, ?_, by decide⟩
  decide

/-- C3 (amended): the resolver returns null when the walk exhausts the chain
without meeting either a scrollable candidate or the document's body/root, and
the document has no designated scrolling element; when the walk does reach
body/root with no designated scrolling element, it returns that body/root
element itself, not null. -/
theorem resolver_null_when_nothing (doc : Document) (chain : List Elem)
    (hdoc : doc.scrollingElement = none)
    (hch : ∀ e ∈ chain, isBodyOrRoot e = false ∧ hasScrollableOverflow e = false) :
    findScrollableAncestor doc chain = none := by
  induction chain with
  | nil => simpa [findScrollableAncestor] using hdoc
  | cons a l ihl =>
      obtain ⟨h1, h2⟩ := hch a (List.mem_cons_self a l)
      rw [findScrollableAncestor, if_neg (by simp [h1]), if_neg (by simp [h2])]
      exact ihl fun e he => hch e (List.mem_cons_of_mem a he)

/-- C3 witness: a detached chain of one unscrollable leaf in a document with no
scrolling element resolves to null. -/
theorem resolver_null_when_nothing_witness :
    findScrollableAncestor bareDoc [plainLeaf] = none :=
  resolver_null_when_nothing bareDoc [plainLeaf] rfl (by decide)

/-- C4: first-match semantics of the resolver. If every element before `el` in
the chain is neither body/root nor has scrollable overflow, then: when `el` is
a non-body element with scrollable overflow the resolver returns `el` (the
closest scrollable ancestor); and when the whole chain holds only body/root or
unscrollable elements and a designated scrolling element exists, the resolver
returns the designated scrolling element (body/root mapped to it, and likewise
the exhausted-chain fallback). -/
theorem resolver_first_match :
    (∀ (doc : Document) (pre : List Elem) (el : Elem) (rest : List Elem),
      (∀ e ∈ pre, isBodyOrRoot e = false ∧ hasScrollableOverflow e = false) →
      isBodyOrRoot el = false → hasScrollableOverflow el = true →
      findScrollableAncestor doc (pre ++ el :: rest) = some el) ∧
    (∀ (doc : Document) (chain : List Elem) (se : Elem),
      doc.scrollingElement = some se →
      (∀ e ∈ chain, isBodyOrRoot e = true ∨ hasScrollableOverflow e = false) →
      findScrollableAncestor doc chain = some se) := by
  constructor
  · intro doc pre el rest hpre hel1 hel2
    induction pre with
    | nil =>
        rw [List.nil_append, findScrollableAncestor,
          if_neg (by simp [hel1]), if_pos (by simp [hel2])]
    | cons a l ihl =>
        obtain ⟨h1, h2⟩ := hpre a (List.mem_cons_self a l)
        rw [List.cons_append, findScrollableAncestor,
          if_neg (by simp [h1]), if_neg (by simp [h2])]
        exact ihl fun e he => hpre e (List.mem_cons_of_mem a he)
  · intro doc chain se hse hch
    induction chain with
    | nil => simpa [findScrollableAncestor] using hse
    | cons a l ihl =>
        rcases hch a (List.mem_cons_self a l) with h1 | h1
        · rw [findScrollableAncestor, if_pos (by simp [h1]), hse]
          rfl
        · by_cases hb : isBodyOrRoot a = true
          · rw [findScrollableAncestor, if_pos (by simp [hb]), hse]
            rfl
          · rw [findScrollableAncestor, if_neg (by simpa using hb),
              if_neg (by simp [h1])]
            exact ihl fun e he => hch e (List.mem_cons_of_mem a he)

/-- C4 witness: for the chain `A (visible) → B (auto, overflowing) → body`,
the resolver returns `B`; and for the chain `leaf (visible) → body` it returns
the document's designated scrolling element. -/
theorem resolver_first_match_witness :
    findScrollableAncestor stdDoc [elemA, elemB, plainBody] = some elemB ∧
    findScrollableAncestor stdDoc [plainLeaf, plainBody] = some docScroller :=
  ⟨resolver_first_match.1 stdDoc [elemA] elemB [plainBody]
      (by decide) (by decide) (by decide),
    resolver_first_match.2 stdDoc [plainLeaf, plainBody] docScroller rfl (by decide)⟩

end AutoScroll
